import Mathlib

/-!
Verification of the combat subsystem of the `gamer` repository.

Shallow embedding of `gamer/combat/actions.py`, `gamer/combat/initiative.py`,
`gamer/combat/combat.py`, `gamer/characters/character.py`,
`gamer/characters/spells.py` and `gamer/utils/dice.py`.

Modeling conventions:
- Python's unbounded integers are `Int`; strings are `String`; dictionaries are
  association lists in insertion order.
- Randomness: every `random.randint(1, die_size)` draw is read from an explicit
  stream of pre-drawn values (`List Int`) threaded through each operation (the head
  of the stream is the next draw, defaulting to 1 on an empty stream).
- Python's stable `list.sort()` (which compares with `InitiativeEntry.__lt__`) is
  modeled by `List.insertionSort` with the relation `a may stay before b` given by
  the negation of `b < a`; insertion sort with this relation is a stable sort and
  therefore extensionally equal to CPython's Timsort on every input.
- Fallible attribute access that the source guards with `hasattr` is modeled by the
  `isCharacter` flag of `Entity` (characters and monsters expose different
  attribute sets, see the `Entity` doc comment).
-/

namespace Gamer

/-- Model of one `random.randint(1, die_size)` draw taken from the pre-drawn stream
(`gamer/utils/dice.py`, `roll_dice`). -/
def drawDie : List Int → Int × List Int
  | [] => (1, [])
  | x :: xs => (x, xs)

/-- Model of `roll_dice(num_dice, die_size, modifier=0)` without the modifier: the sum
of `num_dice` draws (`gamer/utils/dice.py`). The die size only constrains the range of
the drawn values and does not otherwise enter the computation. -/
def rollDiceSum : Nat → List Int → Int × List Int
  | 0, rng => (0, rng)
  | n + 1, rng =>
      let p1 := drawDie rng
      let p2 := rollDiceSum n p1.2
      (p1.1 + p2.1, p2.2)

/-- Model of a parsed dice-notation string such as `"2d6+3"` (`gamer/utils/dice.py`,
`roll`): number of dice, die size, flat modifier. -/
structure DiceExpr where
  num_dice : Nat
  die_size : Nat
  modifier : Int
deriving DecidableEq

/-- Model of `roll(notation)` from `gamer/utils/dice.py`, returning the total (sum of
the individual draws plus the notation's modifier) and the remaining stream.  The
individual-roll list and the modifier component of the Python return value are used
only for logging by the combat layer and are omitted. -/
def rollExpr (nd : DiceExpr) (rng : List Int) : Int × List Int :=
  let p := rollDiceSum nd.num_dice rng
  (p.1 + nd.modifier, p.2)

/-- Model of `d20()` (`gamer/utils/dice.py`): a single d20 draw. -/
def rollD20 (rng : List Int) : Int × List Int := drawDie rng

/-- Model of `ActionEconomy` from `gamer/combat/actions.py`. -/
structure ActionEconomy where
  action_available : Bool
  bonus_action_available : Bool
  reaction_available : Bool
  movement_remaining : Int
  extra_attacks : Int
deriving DecidableEq

/-- Model of `ActionEconomy.__init__`. -/
def ActionEconomy.init : ActionEconomy :=
  { action_available := true
    bonus_action_available := true
    reaction_available := true
    movement_remaining := 0
    extra_attacks := 0 }

/-- Model of `ActionEconomy.set_movement(speed, is_dashing)`. -/
def ActionEconomy.set_movement (e : ActionEconomy) (speed : Int) (is_dashing : Bool) :
    ActionEconomy :=
  { e with movement_remaining := if is_dashing then speed * 2 else speed }

/-- Model of `ActionEconomy.use_action`: returns the Python return value paired with
the updated state. -/
def ActionEconomy.use_action (e : ActionEconomy) : Bool × ActionEconomy :=
  if e.action_available then (true, { e with action_available := false }) else (false, e)

/-- Model of `ActionEconomy.use_bonus_action`. -/
def ActionEconomy.use_bonus_action (e : ActionEconomy) : Bool × ActionEconomy :=
  if e.bonus_action_available then (true, { e with bonus_action_available := false })
  else (false, e)

/-- Model of `ActionEconomy.use_reaction`. -/
def ActionEconomy.use_reaction (e : ActionEconomy) : Bool × ActionEconomy :=
  if e.reaction_available then (true, { e with reaction_available := false }) else (false, e)

/-- Model of `ActionEconomy.use_movement(feet)`. -/
def ActionEconomy.use_movement (e : ActionEconomy) (feet : Int) : Bool × ActionEconomy :=
  if feet ≤ e.movement_remaining then
    (true, { e with movement_remaining := e.movement_remaining - feet })
  else (false, e)

/-- Model of `ActionEconomy.reset`. -/
def ActionEconomy.reset (e : ActionEconomy) : ActionEconomy :=
  { e with
    action_available := true
    bonus_action_available := true
    reaction_available := true
    movement_remaining := 0
    extra_attacks := 0 }

/-- Comparison of action budgets used by claim C9: every capacity of the first budget
is at most the corresponding capacity of the second (a spent flag is `false`). -/
def econLe (a b : ActionEconomy) : Prop :=
  (a.action_available = true → b.action_available = true) ∧
  (a.bonus_action_available = true → b.bonus_action_available = true) ∧
  (a.reaction_available = true → b.reaction_available = true) ∧
  a.movement_remaining ≤ b.movement_remaining

/-- Model of the six abilities (`gamer/characters/abilities.py`, `Ability`). -/
inductive Ability
  | STRENGTH
  | DEXTERITY
  | CONSTITUTION
  | INTELLIGENCE
  | WISDOM
  | CHARISMA
deriving DecidableEq

/-- Model of spell casting times (`gamer/characters/spells.py`, `CastingTime`). -/
inductive CastingTime
  | ACTION
  | BONUS_ACTION
  | REACTION
  | MINUTE_1
  | MINUTE_10
  | HOUR_1
deriving DecidableEq

/-- Model of `Spell` (`gamer/characters/spells.py`), restricted to the fields the
combat layer reads.  `damage_dice` is `none` exactly when the Python string is empty
(the source tests it for truthiness and otherwise parses it with `roll`). -/
structure Spell where
  name : String
  level : Int
  casting_time : CastingTime
  damage_dice : Option DiceExpr
  damage_type : String
  saving_throw : Option Ability
  concentration : Bool
deriving DecidableEq

/-- Model of `dict.get(key, 0)` on an integer-keyed dictionary kept as an association
list. -/
def slotGet : List (Int × Int) → Int → Int
  | [], _ => 0
  | (k, v) :: rest, key => if k = key then v else slotGet rest key

/-- Model of `dict[key] = value` on an association list: replaces the first binding of
the key, or appends a new binding. -/
def slotSet : List (Int × Int) → Int → Int → List (Int × Int)
  | [], key, value => [(key, value)]
  | (k, v) :: rest, key, value =>
      if k = key then (k, value) :: rest else (k, v) :: slotSet rest key value

/-- Model of `SpellSlotTracker` (`gamer/characters/spells.py`). -/
structure SpellSlotTracker where
  max_slots : List (Int × Int)
  current_slots : List (Int × Int)
deriving DecidableEq

/-- Model of `SpellSlotTracker.get_slots`. -/
def SpellSlotTracker.get_slots (t : SpellSlotTracker) (level : Int) : Int :=
  slotGet t.current_slots level

/-- Model of `SpellSlotTracker.has_slot`. -/
def SpellSlotTracker.has_slot (t : SpellSlotTracker) (level : Int) : Bool :=
  decide (t.get_slots level > 0)

/-- Model of `SpellSlotTracker.use_slot`. -/
def SpellSlotTracker.use_slot (t : SpellSlotTracker) (level : Int) :
    Bool × SpellSlotTracker :=
  if t.get_slots level > 0 then
    (true, { t with current_slots := slotSet t.current_slots level (t.get_slots level - 1) })
  else (false, t)

/-- Model of Python `str.lower()`: maps `Char.toLower` over the characters.  This
agrees with `String.toLower` on every string and, unlike it, reduces inside the
kernel. -/
def strToLower (s : String) : String := String.mk (s.data.map Char.toLower)

/-- Model of `Spellbook` (`gamer/characters/spells.py`).  The module-level `SPELLS`
dictionary is passed to its operations as an explicit lowercase-keyed map `db`
(`get_spell(name)` is `db name.toLower`), so that theorems can quantify over the spell
involved. -/
structure Spellbook where
  spellcasting_ability : Ability
  known_spells : List String
  prepared_spells : List String
  cantrips : List String
  slot_tracker : SpellSlotTracker
  concentrating_on : Option String
deriving DecidableEq

/-- Model of the Python expression `slot_level or spell.level`: both `None` and `0`
are falsy. -/
def orLevel (slot_level : Option Int) (lvl : Int) : Int :=
  match slot_level with
  | none => lvl
  | some v => if v = 0 then lvl else v

/-- Model of `Spellbook.can_cast(spell_name, slot_level)`. -/
def Spellbook.can_cast (db : String → Option Spell) (sb : Spellbook) (spell_name : String)
    (slot_level : Option Int) : Bool :=
  let key := strToLower spell_name
  match db key with
  | none => false
  | some spell =>
      if spell.level = 0 && sb.cantrips.contains key then true
      else if !(sb.known_spells.contains key) && !(sb.prepared_spells.contains key) then false
      else
        let cast_level := orLevel slot_level spell.level
        if cast_level < spell.level then false
        else sb.slot_tracker.has_slot cast_level

/-- Model of `Spellbook.cast_spell(spell_name, slot_level)`: the Python return value
paired with the updated spellbook. -/
def Spellbook.cast_spell (db : String → Option Spell) (sb : Spellbook) (spell_name : String)
    (slot_level : Option Int) : Option Spell × Spellbook :=
  let key := strToLower spell_name
  match db key with
  | none => (none, sb)
  | some spell =>
      if spell.level = 0 then
        if sb.cantrips.contains key then (some spell, sb) else (none, sb)
      else
        let cast_level := orLevel slot_level spell.level
        if cast_level < spell.level then (none, sb)
        else
          let p := sb.slot_tracker.use_slot cast_level
          if p.1 then
            let sb1 := { sb with slot_tracker := p.2 }
            if spell.concentration then (some spell, { sb1 with concentrating_on := some spell.name })
            else (some spell, sb1)
          else (none, sb)

/-- Model of `Spellbook.get_spell_save_dc`. -/
def Spellbook.get_spell_save_dc (proficiency_bonus ability_modifier : Int) : Int :=
  8 + proficiency_bonus + ability_modifier

/-- Model of `Spellbook.get_spell_attack_bonus`. -/
def Spellbook.get_spell_attack_bonus (proficiency_bonus ability_modifier : Int) : Int :=
  proficiency_bonus + ability_modifier

/-- Model of a combat entity: the union of the attributes of `Character`
(`gamer/characters/character.py`) and `Monster` (`gamer/world/monsters.py`) that the
combat layer reads.  `isCharacter` models the `hasattr`-based dispatch: characters
have temporary HP, death saves, conditions (`has_condition`) and optionally a
spellbook; monsters have none of those (`has_condition` checks on them are skipped by
`hasattr`, their `spellbook` is modeled as `none`).  The weapon-parameterized bonus
queries (`Character.get_attack_bonus`/`get_damage_bonus`; monsters lack both the
method and the plain attribute, so the source falls back to 0) are abstracted to
their resolved integer values `attack_bonus`/`damage_bonus` — every theorem below
quantifies over these values.  `ability_mods` models `abilities.get_modifier` and
`save_mods` models `get_saving_throw_modifier` (both characters and monsters expose
the latter). -/
structure Entity where
  name : String
  isCharacter : Bool
  current_hp : Int
  max_hp : Int
  temp_hp : Int
  death_save_successes : Int
  death_save_failures : Int
  armor_class : Int
  speed : Int
  attack_bonus : Int
  damage_bonus : Int
  conditions : List String
  proficiency_bonus : Int
  ability_mods : Ability → Int
  save_mods : Ability → Int
  spellbook : Option Spellbook
  level : Int
  char_class_name : String

/-- Model of `Combatant.is_alive` (`gamer/combat/combat.py` lines 43-47): both
`Character` (`current_hp > 0 or death_save_failures < 3`) and `Monster`
(`current_hp > 0`) expose an `is_alive` property, so the `hasattr` branch is always
taken. -/
def Entity.is_alive (e : Entity) : Bool :=
  if e.isCharacter then decide (e.current_hp > 0) || decide (e.death_save_failures < 3)
  else decide (e.current_hp > 0)

/-- Model of `Combatant.is_conscious` (`gamer/combat/combat.py` lines 49-53):
`Character.is_conscious` is `current_hp > 0`; a `Monster` has no `is_conscious`
attribute and the fallback is also `current_hp > 0`. -/
def Entity.is_conscious (e : Entity) : Bool :=
  decide (e.current_hp > 0)

/-- Model of `Entity.has_condition`: only characters expose `has_condition`
(`hasattr` in `CombatEncounter.attack` is false for monsters). -/
def Entity.has_condition (e : Entity) (c : String) : Bool :=
  e.isCharacter && e.conditions.contains c

/-- Model of the result dictionary of the damage-application operations
(`Character.take_damage` and `Monster.take_damage`). -/
structure DamageResult where
  damage_taken : Int
  temp_hp_absorbed : Int
  knocked_unconscious : Bool
  instant_death : Bool
deriving DecidableEq

/-- Model of `Character.take_damage(amount)` (`gamer/characters/character.py`
lines 194-232), returning the result dictionary and the updated entity. -/
def Entity.take_damage_character (e : Entity) (amount : Int) : DamageResult × Entity :=
  let absorbed := if e.temp_hp > 0 then min e.temp_hp amount else 0
  let e1 := if e.temp_hp > 0 then { e with temp_hp := e.temp_hp - absorbed } else e
  let amount1 := if e.temp_hp > 0 then amount - absorbed else amount
  if amount1 ≤ 0 then
    ({ damage_taken := absorbed, temp_hp_absorbed := absorbed,
       knocked_unconscious := false, instant_death := false }, e1)
  else if e1.current_hp > 0 ∧ amount1 ≥ e1.current_hp + e1.max_hp then
    ({ damage_taken := amount1, temp_hp_absorbed := absorbed,
       knocked_unconscious := false, instant_death := true },
     { e1 with current_hp := 0, death_save_failures := 3 })
  else
    let old_hp := e1.current_hp
    let new_hp := max 0 (old_hp - amount1)
    let ku := decide (old_hp > 0) && decide (new_hp = 0)
    ({ damage_taken := old_hp - new_hp + absorbed, temp_hp_absorbed := absorbed,
       knocked_unconscious := ku, instant_death := false },
     if ku then
       { e1 with current_hp := new_hp, death_save_successes := 0, death_save_failures := 0 }
     else { e1 with current_hp := new_hp })

/-- Model of `Monster.take_damage(amount)` (`gamer/world/monsters.py` lines 127-136). -/
def Entity.take_damage_monster (e : Entity) (amount : Int) : DamageResult × Entity :=
  let old_hp := e.current_hp
  let new_hp := max 0 (old_hp - amount)
  ({ damage_taken := old_hp - new_hp,
     knocked_unconscious := decide (old_hp > 0) && decide (new_hp = 0),
     instant_death := false, temp_hp_absorbed := 0 },
   { e with current_hp := new_hp })

/-- Model of the dynamic dispatch of `target.entity.take_damage(...)` in the combat
layer: characters and monsters implement different damage operations. -/
def Entity.take_damage (e : Entity) (amount : Int) : DamageResult × Entity :=
  if e.isCharacter then e.take_damage_character amount else e.take_damage_monster amount

/-- Model of the result dictionary of `Character.death_save`. -/
structure DeathSaveResult where
  roll : Int
  success : Bool
  stabilized : Bool
  revived : Bool
  died : Bool
deriving DecidableEq

/-- Model of `Character.death_save(roll)` (`gamer/characters/character.py`
lines 249-281). -/
def Entity.death_save (e : Entity) (roll : Int) : DeathSaveResult × Entity :=
  if roll = 20 then
    ({ roll := roll, success := true, stabilized := false, revived := true, died := false },
     { e with current_hp := 1, death_save_successes := 0, death_save_failures := 0 })
  else if roll = 1 then
    let f := e.death_save_failures + 2
    ({ roll := roll, success := false, stabilized := false, revived := false,
       died := decide (f ≥ 3) },
     { e with death_save_failures := f })
  else if roll ≥ 10 then
    let s := e.death_save_successes + 1
    ({ roll := roll, success := true, stabilized := decide (s ≥ 3), revived := false,
       died := false },
     { e with death_save_successes := s })
  else
    let f := e.death_save_failures + 1
    ({ roll := roll, success := false, stabilized := false, revived := false,
       died := decide (f ≥ 3) },
     { e with death_save_failures := f })

/-- Model of `InitiativeEntry` (`gamer/combat/initiative.py`). -/
structure InitiativeEntry where
  name : String
  initiative : Int
  dex_modifier : Int
  entity_id : String
  is_player : Bool
  has_acted : Bool
deriving DecidableEq

/-- Model of `InitiativeEntry.__lt__`: initiative descending, then DEX modifier
descending. -/
def InitiativeEntry.lt (a b : InitiativeEntry) : Bool :=
  if a.initiative ≠ b.initiative then decide (a.initiative > b.initiative)
  else decide (a.dex_modifier > b.dex_modifier)

/-- The relation `a may stay before b` of a stable sort driven by
`InitiativeEntry.__lt__`: the negation of `b < a`.  CPython's `list.sort()` is a
stable sort, so two list elements `a` (earlier) and `b` (later) end up in this order
exactly when `¬ (b < a)`. -/
def entryLe (a b : InitiativeEntry) : Prop := ¬ InitiativeEntry.lt b a = true

instance : DecidableRel entryLe := fun a b => by
  unfold entryLe
  infer_instance

instance : IsTotal InitiativeEntry entryLe := by
  constructor
  intro a b
  rw [or_iff_not_imp_left]
  intro h
  simp only [entryLe, not_not] at h
  simp only [entryLe]
  intro hab
  rw [InitiativeEntry.lt] at h hab
  split at h <;> split at hab <;>
    simp only [decide_eq_true_eq, ne_eq] at * <;> omega

instance : IsTrans InitiativeEntry entryLe := by
  constructor
  intro a b c hba hcb
  simp only [entryLe, Bool.not_eq_true] at hba hcb ⊢
  rw [InitiativeEntry.lt] at hba hcb ⊢
  split at hba <;> split at hcb <;> split <;>
    simp only [decide_eq_false_iff_not, decide_eq_true_eq, ne_eq, not_lt] at * <;> omega

/-- Model of `InitiativeTracker._sort` / `self.entries.sort()`: Python's stable sort
with comparison `__lt__`, which is extensionally `List.insertionSort entryLe`
(insertion sort with a total preorder is stable). -/
def sortEntries (l : List InitiativeEntry) : List InitiativeEntry :=
  List.insertionSort entryLe l

/-- Model of `InitiativeTracker` (`gamer/combat/initiative.py`).  `current_index` is
kept as a `Nat`: in the source it starts at 0 and is only ever incremented, reset to
0, or decremented when strictly positive, so it never becomes negative. -/
structure InitiativeTracker where
  entries : List InitiativeEntry
  current_index : Nat
  round_number : Int
deriving DecidableEq

/-- Model of `InitiativeTracker.__init__`. -/
def InitiativeTracker.init : InitiativeTracker :=
  { entries := [], current_index := 0, round_number := 1 }

/-- Model of `InitiativeTracker.add_combatant(name, entity_id, dex_modifier,
is_player, roll)`: rolls `d20(modifier=dex_modifier)` when no forced roll is given,
appends the entry and re-sorts.  Returns the initiative value, the new tracker and
the remaining dice stream. -/
def InitiativeTracker.add_combatant (t : InitiativeTracker) (name entity_id : String)
    (dex_modifier : Int) (is_player : Bool) (roll : Option Int) (rng : List Int) :
    Int × InitiativeTracker × List Int :=
  let p : Int × List Int :=
    match roll with
    | some r => (r, rng)
    | none =>
        let q := rollD20 rng
        (q.1 + dex_modifier, q.2)
  let entry : InitiativeEntry :=
    { name := name, initiative := p.1, dex_modifier := dex_modifier,
      entity_id := entity_id, is_player := is_player, has_acted := false }
  (p.1, { t with entries := sortEntries (t.entries ++ [entry]) }, p.2)

/-- Model of `InitiativeTracker.get_current`. -/
def InitiativeTracker.get_current (t : InitiativeTracker) : Option InitiativeEntry :=
  if t.entries.isEmpty then none else t.entries.get? t.current_index

/-- Model of `InitiativeTracker.next_turn`: marks the current entry as having acted,
advances the pointer, and on wraparound starts a new round and clears the
`has_acted` flags. -/
def InitiativeTracker.next_turn (t : InitiativeTracker) :
    Option InitiativeEntry × InitiativeTracker :=
  if t.entries.isEmpty then (none, t)
  else
    let entries1 :=
      match t.entries.get? t.current_index with
      | some e => t.entries.set t.current_index { e with has_acted := true }
      | none => t.entries
    let i := t.current_index + 1
    if i ≥ entries1.length then
      let t1 := { t with
        entries := entries1.map (fun e => { e with has_acted := false }),
        current_index := 0,
        round_number := t.round_number + 1 }
      (t1.get_current, t1)
    else
      let t1 := { t with entries := entries1, current_index := i }
      (t1.get_current, t1)

/-- Model of `InitiativeTracker.get_entry`: first entry with the given entity id. -/
def InitiativeTracker.get_entry (t : InitiativeTracker) (entity_id : String) :
    Option InitiativeEntry :=
  t.entries.find? (fun e => e.entity_id == entity_id)

/-- Helper for `set_initiative`: the `entry.initiative = new_initiative` assignment
mutates the object found by `get_entry`, i.e. the first entry with the id. -/
def setInitFirst : List InitiativeEntry → String → Int → List InitiativeEntry
  | [], _, _ => []
  | e :: rest, entity_id, v =>
      if e.entity_id == entity_id then { e with initiative := v } :: rest
      else e :: setInitFirst rest entity_id v

/-- Model of `InitiativeTracker.set_initiative(entity_id, new_initiative)`
(`gamer/combat/initiative.py` lines 106-119).  Note the source reads
`self.entries[self.current_index]` only after `_sort()`, then looks up the first
index carrying that (post-sort) entry's id. -/
def InitiativeTracker.set_initiative (t : InitiativeTracker) (entity_id : String)
    (new_initiative : Int) : Bool × InitiativeTracker :=
  match t.get_entry entity_id with
  | none => (false, t)
  | some _ =>
      let sorted := sortEntries (setInitFirst t.entries entity_id new_initiative)
      let idx :=
        match sorted.get? t.current_index with
        | none => t.current_index
        | some cur =>
            let j := sorted.findIdx (fun e => e.entity_id == cur.entity_id)
            if j < sorted.length then j else t.current_index
      (true, { t with entries := sorted, current_index := idx })

/-- Model of `InitiativeTracker.delay_turn(entity_id, new_initiative)`. -/
def InitiativeTracker.delay_turn (t : InitiativeTracker) (entity_id : String)
    (new_initiative : Int) : Bool × InitiativeTracker :=
  match t.get_entry entity_id with
  | some entry =>
      if new_initiative < entry.initiative then t.set_initiative entity_id new_initiative
      else (false, t)
  | none => (false, t)

/-- Model of `CombatState` (`gamer/combat/combat.py`). -/
inductive CombatState
  | NOT_STARTED
  | ROLLING_INITIATIVE
  | IN_PROGRESS
  | VICTORY
  | DEFEAT
  | FLED
deriving DecidableEq

/-- The terminal lifecycle states named by the specification. -/
def CombatState.isTerminal : CombatState → Bool
  | CombatState.VICTORY => true
  | CombatState.DEFEAT => true
  | CombatState.FLED => true
  | _ => false

/-- Model of `ActionResult` (`gamer/combat/actions.py`).  The `roll_details`
dictionary only ever holds integer values in the source. -/
structure ActionResult where
  success : Bool
  description : String
  damage_dealt : Int
  damage_type : String
  healing_done : Int
  target_id : Option String
  conditions_applied : List String
  conditions_removed : List String
  spell_used : Option String
  slot_used : Int
  critical : Bool
  roll_details : List (String × Int)
deriving DecidableEq

/-- Model of `ActionResult(success=..., description=...)` with all the dataclass
defaults. -/
def ActionResult.mk0 (success : Bool) (description : String) : ActionResult :=
  { success := success, description := description, damage_dealt := 0, damage_type := "",
    healing_done := 0, target_id := none, conditions_applied := [], conditions_removed := [],
    spell_used := none, slot_used := 0, critical := false, roll_details := [] }

/-- Model of a `WEAPON_DATA` record (`gamer/combat/actions.py`): the fields `attack`
reads.  `CombatEncounter.attack` is parameterized directly by the record that
`get_weapon_data(weapon)` returns for the weapon-name string. -/
structure WeaponData where
  damage : DiceExpr
  damage_type : String
deriving DecidableEq

/-- Model of the `WEAPON_DATA` table (`gamer/combat/actions.py` lines 202-219):
every entry's damage notation is plain dice with no flat modifier. -/
def WEAPON_DATA : List (String × WeaponData) :=
  [("longsword", { damage := { num_dice := 1, die_size := 8, modifier := 0 }, damage_type := "slashing" }),
   ("shortsword", { damage := { num_dice := 1, die_size := 6, modifier := 0 }, damage_type := "piercing" }),
   ("greatsword", { damage := { num_dice := 2, die_size := 6, modifier := 0 }, damage_type := "slashing" }),
   ("greataxe", { damage := { num_dice := 1, die_size := 12, modifier := 0 }, damage_type := "slashing" }),
   ("rapier", { damage := { num_dice := 1, die_size := 8, modifier := 0 }, damage_type := "piercing" }),
   ("dagger", { damage := { num_dice := 1, die_size := 4, modifier := 0 }, damage_type := "piercing" }),
   ("handaxe", { damage := { num_dice := 1, die_size := 6, modifier := 0 }, damage_type := "slashing" }),
   ("javelin", { damage := { num_dice := 1, die_size := 6, modifier := 0 }, damage_type := "piercing" }),
   ("mace", { damage := { num_dice := 1, die_size := 6, modifier := 0 }, damage_type := "bludgeoning" }),
   ("quarterstaff", { damage := { num_dice := 1, die_size := 6, modifier := 0 }, damage_type := "bludgeoning" }),
   ("warhammer", { damage := { num_dice := 1, die_size := 8, modifier := 0 }, damage_type := "bludgeoning" }),
   ("battleaxe", { damage := { num_dice := 1, die_size := 8, modifier := 0 }, damage_type := "slashing" }),
   ("longbow", { damage := { num_dice := 1, die_size := 8, modifier := 0 }, damage_type := "piercing" }),
   ("shortbow", { damage := { num_dice := 1, die_size := 6, modifier := 0 }, damage_type := "piercing" }),
   ("light_crossbow", { damage := { num_dice := 1, die_size := 8, modifier := 0 }, damage_type := "piercing" }),
   ("hand_crossbow", { damage := { num_dice := 1, die_size := 6, modifier := 0 }, damage_type := "piercing" })]

/-- Model of the default record returned by `get_weapon_data` for unknown weapons
(for example the default `"unarmed"`). -/
def defaultWeapon : WeaponData :=
  { damage := { num_dice := 1, die_size := 4, modifier := 0 }, damage_type := "bludgeoning" }

/-- The weapon records `get_weapon_data` can ever return: the table entries and the
default. -/
def weaponDomain : List WeaponData :=
  defaultWeapon :: (WEAPON_DATA.map (fun p => p.2))

/-- Model of `Combatant` (`gamer/combat/combat.py`). -/
structure Combatant where
  entity : Entity
  entity_id : String
  is_player : Bool
  action_economy : ActionEconomy
  is_dodging : Bool
  is_hidden : Bool
  helped_by : Option String
  readied_action : Option String

/-- Model of `Combatant.is_alive`. -/
def Combatant.is_alive (c : Combatant) : Bool := c.entity.is_alive

/-- Model of `Combatant.is_conscious`. -/
def Combatant.is_conscious (c : Combatant) : Bool := c.entity.is_conscious

/-- Model of `CombatEncounter` (`gamer/combat/combat.py`).  The `combatants` dict is
an association list in insertion order with unique keys. -/
structure CombatEncounter where
  state : CombatState
  initiative : InitiativeTracker
  combatants : List (String × Combatant)
  combat_log : List String
  turn_number : Int

/-- Model of `self.combatants.get(entity_id)`. -/
def dictGet : List (String × Combatant) → String → Option Combatant
  | [], _ => none
  | (k, v) :: rest, key => if k = key then some v else dictGet rest key

/-- In-place mutation of the combatant stored under a key (Python mutates the object
held by the dict): applies `f` to every binding of the key (keys are unique). -/
def dictUpdate : List (String × Combatant) → String → (Combatant → Combatant) →
    List (String × Combatant)
  | [], _, _ => []
  | (k, v) :: rest, key, f =>
      if k = key then (k, f v) :: dictUpdate rest key f
      else (k, v) :: dictUpdate rest key f

/-- Model of `CombatEncounter._log`. -/
def CombatEncounter.addLog (s : CombatEncounter) (message : String) : CombatEncounter :=
  { s with combat_log := s.combat_log ++ [message] }

/-- Model of `CombatEncounter.get_combatant`. -/
def CombatEncounter.get_combatant (s : CombatEncounter) (entity_id : String) :
    Option Combatant :=
  dictGet s.combatants entity_id

/-- Model of `CombatEncounter.get_current_combatant`. -/
def CombatEncounter.get_current_combatant (s : CombatEncounter) : Option Combatant :=
  match s.initiative.get_current with
  | some cur => dictGet s.combatants cur.entity_id
  | none => none

/-- Model of `CombatEncounter._check_combat_end` (`gamer/combat/combat.py`
lines 186-205): recomputes victory/defeat from the combatants' liveness regardless of
the current lifecycle state. -/
def CombatEncounter.check_combat_end (s : CombatEncounter) : Bool × CombatEncounter :=
  let players_alive := s.combatants.any (fun p => p.2.is_player && p.2.is_alive)
  let enemies_alive := s.combatants.any (fun p => !p.2.is_player && p.2.is_alive)
  if !enemies_alive then
    (true, ({ s with state := CombatState.VICTORY }).addLog "\n=== VICTORY! ===")
  else if !players_alive then
    (true, ({ s with state := CombatState.DEFEAT }).addLog "\n=== DEFEAT ===")
  else (false, s)

/-- Model of `CombatEncounter._start_turn` (`gamer/combat/combat.py` lines 121-152):
resets the new current combatant's action economy, grants movement and possible extra
attacks, and clears the turn-scoped flags.  Both characters and monsters expose
`speed`, so the `hasattr` default of 30 is unreachable.  Interpolated log text is
approximated; no claim depends on log contents. -/
def CombatEncounter.start_turn (s : CombatEncounter) : CombatEncounter :=
  match s.initiative.get_current with
  | none => s
  | some cur =>
      match dictGet s.combatants cur.entity_id with
      | none => s
      | some c =>
          let eco1 := (c.action_economy.reset).set_movement c.entity.speed false
          let eco2 :=
            if c.is_player && decide (c.entity.level ≥ 5) &&
                (c.entity.char_class_name == "Fighter" ||
                 c.entity.char_class_name == "Ranger" ||
                 c.entity.char_class_name == "Barbarian") then
              { eco1 with extra_attacks := 1 }
            else eco1
          let c1 := { c with action_economy := eco2, is_dodging := false, helped_by := none }
          let s1 := { s with
            combatants := dictUpdate s.combatants cur.entity_id (fun _ => c1),
            turn_number := s.turn_number + 1 }
          s1.addLog ("\n--- " ++ c.entity.name ++ " Turn (Round " ++
            toString s1.initiative.round_number ++ ") ---")

/-- Model of `CombatEncounter.next_turn` (`gamer/combat/combat.py` lines 165-184).
The source recurses to skip unconscious non-player combatants; the recursion is
modeled with explicit fuel (in the source it terminates because `_check_combat_end`
fires once no conscious enemy remains). -/
def CombatEncounter.next_turn : Nat → CombatEncounter → Option Combatant × CombatEncounter
  | 0, s => (none, s)
  | fuel + 1, s =>
      let p := s.check_combat_end
      if p.1 then (none, p.2)
      else
        let q := p.2.initiative.next_turn
        let s1 := { p.2 with initiative := q.2 }
        let s2 := s1.start_turn
        match s2.get_current_combatant with
        | some cur =>
            if !cur.is_conscious then
              if cur.is_player then
                (some cur,
                 s2.addLog (cur.entity.name ++ " is unconscious and must make a death saving throw."))
              else CombatEncounter.next_turn fuel s2
            else (some cur, s2)
        | none => (none, s2)

/-- Model of `CombatEncounter.end_combat(reason)` (`gamer/combat/combat.py`
lines 553-557). -/
def CombatEncounter.end_combat (s : CombatEncounter) (reason : String) : CombatEncounter :=
  let s1 := if s.state = CombatState.IN_PROGRESS then { s with state := CombatState.FLED } else s
  s1.addLog ("\n=== " ++ reason ++ " ===")

/-- Model of `CombatEncounter.attack(attacker_id, target_id, weapon)`
(`gamer/combat/combat.py` lines 207-338), parameterized by the weapon record that
`get_weapon_data` returns and by the dice stream.  Returns the action result, the
updated encounter and the remaining stream. -/
def CombatEncounter.attack (s : CombatEncounter) (attacker_id target_id : String)
    (weapon : WeaponData) (rng : List Int) : ActionResult × CombatEncounter × List Int :=
  match dictGet s.combatants attacker_id, dictGet s.combatants target_id with
  | some attacker, some target =>
      let economy := attacker.action_economy
      if !economy.action_available && decide (economy.extra_attacks ≤ 0) then
        (ActionResult.mk0 false "No attacks remaining", s, rng)
      else
        let eco1 :=
          if economy.action_available then (economy.use_action).2
          else { economy with extra_attacks := economy.extra_attacks - 1 }
        let s1 := { s with
          combatants := dictUpdate s.combatants attacker_id
            (fun c => { c with action_economy := eco1 }) }
        let attack_bonus := attacker.entity.attack_bonus
        let disadvantage :=
          (target.is_dodging && target.is_conscious) || attacker.entity.has_condition "prone"
        let advantage :=
          attacker.helped_by.isSome || target.entity.has_condition "prone" ||
            target.entity.has_condition "paralyzed" || target.entity.has_condition "stunned"
        let rolled : Int × List Int :=
          if advantage && !disadvantage then
            let p1 := rollD20 rng
            let p2 := rollD20 p1.2
            (max p1.1 p2.1, p2.2)
          else if disadvantage && !advantage then
            let p1 := rollD20 rng
            let p2 := rollD20 p1.2
            (min p1.1 p2.1, p2.2)
          else rollD20 rng
        let attack_roll := rolled.1
        let rng1 := rolled.2
        let total_attack := attack_roll + attack_bonus
        let is_crit := attack_roll == 20
        let is_miss := attack_roll == 1
        let target_ac := target.entity.armor_class
        let details := [("attack_roll", attack_roll), ("attack_bonus", attack_bonus),
          ("total", total_attack), ("target_ac", target_ac)]
        if is_miss then
          let r := { ActionResult.mk0 false
            (attacker.entity.name ++ " attacks " ++ target.entity.name ++ " - CRITICAL MISS!")
            with roll_details := details }
          (r, s1.addLog r.description, rng1)
        else if !is_crit && decide (total_attack < target_ac) then
          let r := { ActionResult.mk0 false
            (attacker.entity.name ++ " attacks " ++ target.entity.name ++ " - MISS")
            with roll_details := details }
          (r, s1.addLog r.description, rng1)
        else
          let p1 := rollExpr weapon.damage rng1
          let pc := if is_crit then rollExpr weapon.damage p1.2 else (0, p1.2)
          let damage_mod := attacker.entity.damage_bonus
          let damage_total := max 0 (p1.1 + (if is_crit then pc.1 else 0) + damage_mod)
          let dmg := target.entity.take_damage damage_total
          let s2 := { s1 with
            combatants := dictUpdate s1.combatants target_id
              (fun c => { c with entity := dmg.2 }) }
          let r : ActionResult := { ActionResult.mk0 true
            (attacker.entity.name ++ " attacks " ++ target.entity.name ++ " - HIT! " ++
              toString damage_total ++ " " ++ weapon.damage_type ++ " damage")
            with
            critical := is_crit,
            damage_dealt := dmg.1.damage_taken,
            damage_type := weapon.damage_type,
            target_id := some target_id,
            roll_details := details }
          (r, s2.addLog r.description, pc.2)
  | _, _ => (ActionResult.mk0 false "Invalid attacker or target", s, rng)

/-- Whether the Python expression `spell.damage_dice and target_id` is truthy:
`target_id` must be a non-`None`, non-empty string. -/
def truthyId : Option String → Bool
  | none => false
  | some t => !t.isEmpty

/-- Model of `CombatEncounter.cast_spell(caster_id, spell_name, target_id,
slot_level)` (`gamer/combat/combat.py` lines 340-439), with the spell database passed
explicitly (see `Spellbook`). -/
def CombatEncounter.cast_spell (db : String → Option Spell) (s : CombatEncounter)
    (caster_id spell_name : String) (target_id : Option String) (slot_level : Option Int)
    (rng : List Int) : ActionResult × CombatEncounter × List Int :=
  match dictGet s.combatants caster_id with
  | none => (ActionResult.mk0 false "Invalid caster", s, rng)
  | some caster =>
      match caster.entity.spellbook with
      | none => (ActionResult.mk0 false "Cannot cast spells", s, rng)
      | some sb =>
          if !(sb.can_cast db spell_name slot_level) then
            (ActionResult.mk0 false ("Cannot cast " ++ spell_name), s, rng)
          else
            match db (strToLower spell_name) with
            | none => (ActionResult.mk0 false ("Unknown spell: " ++ spell_name), s, rng)
            | some spell =>
                let eco := caster.action_economy
                let echeck : Except String ActionEconomy :=
                  match spell.casting_time with
                  | CastingTime.ACTION =>
                      let p := eco.use_action
                      if p.1 then Except.ok p.2 else Except.error "No action available"
                  | CastingTime.BONUS_ACTION =>
                      let p := eco.use_bonus_action
                      if p.1 then Except.ok p.2 else Except.error "No bonus action available"
                  | CastingTime.REACTION =>
                      let p := eco.use_reaction
                      if p.1 then Except.ok p.2 else Except.error "No reaction available"
                  | _ => Except.ok eco
                match echeck with
                | Except.error msg => (ActionResult.mk0 false msg, s, rng)
                | Except.ok eco1 =>
                    let s1 := { s with
                      combatants := dictUpdate s.combatants caster_id
                        (fun c => { c with action_economy := eco1 }) }
                    let cres := sb.cast_spell db spell_name slot_level
                    match cres.1 with
                    | none =>
                        (ActionResult.mk0 false ("Failed to cast " ++ spell_name), s1, rng)
                    | some _ =>
                        let s2 := { s1 with
                          combatants := dictUpdate s1.combatants caster_id
                            (fun c => { c with entity := { c.entity with spellbook := some cres.2 } }) }
                        let base : ActionResult := { ActionResult.mk0 true
                          (caster.entity.name ++ " casts " ++ spell.name) with
                          spell_used := some spell.name,
                          slot_used := orLevel slot_level spell.level }
                        match spell.damage_dice, target_id with
                        | some nd, some tid =>
                            if tid.isEmpty then (base, s2.addLog base.description, rng)
                            else
                              match dictGet s2.combatants tid with
                              | none => (base, s2.addLog base.description, rng)
                              | some target =>
                                  match spell.saving_throw with
                                  | some ability =>
                                      let save_dc := Spellbook.get_spell_save_dc
                                        caster.entity.proficiency_bonus
                                        (caster.entity.ability_mods sb.spellcasting_ability)
                                      let save_mod := target.entity.save_mods ability
                                      let pr := rollD20 rng
                                      let saved := decide (pr.1 + save_mod ≥ save_dc)
                                      let pd := rollExpr nd pr.2
                                      let damage_total :=
                                        if saved then Int.fdiv pd.1 2 else pd.1
                                      let dmg := target.entity.take_damage damage_total
                                      let s3 := { s2 with
                                        combatants := dictUpdate s2.combatants tid
                                          (fun c => { c with entity := dmg.2 }) }
                                      let r := { base with
                                        damage_dealt := dmg.1.damage_taken,
                                        damage_type := spell.damage_type,
                                        target_id := some tid,
                                        description := caster.entity.name ++ " casts " ++
                                          spell.name ++ " on " ++ target.entity.name ++ " - " ++
                                          toString damage_total ++ " " ++ spell.damage_type ++
                                          " damage" }
                                      (r, s3.addLog r.description, pd.2)
                                  | none =>
                                      let spell_attack := Spellbook.get_spell_attack_bonus
                                        caster.entity.proficiency_bonus
                                        (caster.entity.ability_mods sb.spellcasting_ability)
                                      let pr := rollD20 rng
                                      let total := pr.1 + spell_attack
                                      let target_ac := target.entity.armor_class
                                      if total ≥ target_ac then
                                        let pd := rollExpr nd pr.2
                                        let dmg := target.entity.take_damage pd.1
                                        let s3 := { s2 with
                                          combatants := dictUpdate s2.combatants tid
                                            (fun c => { c with entity := dmg.2 }) }
                                        let r := { base with
                                          damage_dealt := dmg.1.damage_taken,
                                          damage_type := spell.damage_type,
                                          target_id := some tid,
                                          description := caster.entity.name ++ " casts " ++
                                            spell.name ++ " at " ++ target.entity.name ++
                                            " - HIT!" }
                                        (r, s3.addLog r.description, pd.2)
                                      else
                                        let r := { base with
                                          description := caster.entity.name ++ " casts " ++
                                            spell.name ++ " at " ++ target.entity.name ++
                                            " - MISS" }
                                        (r, s2.addLog r.description, pr.2)
                        | _, _ => (base, s2.addLog base.description, rng)

/-- Model of `CombatEncounter.dodge(combatant_id)` (`gamer/combat/combat.py`
lines 441-456). -/
def CombatEncounter.dodge (s : CombatEncounter) (combatant_id : String) :
    ActionResult × CombatEncounter :=
  match dictGet s.combatants combatant_id with
  | none => (ActionResult.mk0 false "Invalid combatant", s)
  | some c =>
      let p := c.action_economy.use_action
      if !p.1 then (ActionResult.mk0 false "No action available", s)
      else
        let s1 := { s with
          combatants := dictUpdate s.combatants combatant_id
            (fun cc => { cc with action_economy := p.2, is_dodging := true }) }
        let r := ActionResult.mk0 true (c.entity.name ++ " takes the Dodge action.")
        (r, s1.addLog r.description)

/-- Model of `CombatEncounter.dash(combatant_id, is_bonus_action)`
(`gamer/combat/combat.py` lines 458-480). -/
def CombatEncounter.dash (s : CombatEncounter) (combatant_id : String)
    (is_bonus_action : Bool) : ActionResult × CombatEncounter :=
  match dictGet s.combatants combatant_id with
  | none => (ActionResult.mk0 false "Invalid combatant", s)
  | some c =>
      let p := if is_bonus_action then c.action_economy.use_bonus_action
               else c.action_economy.use_action
      if !p.1 then
        (ActionResult.mk0 false
          (if is_bonus_action then "No bonus action available" else "No action available"), s)
      else
        let eco := { p.2 with movement_remaining := p.2.movement_remaining + c.entity.speed }
        let s1 := { s with
          combatants := dictUpdate s.combatants combatant_id
            (fun cc => { cc with action_economy := eco }) }
        let r := ActionResult.mk0 true (c.entity.name ++ " Dashes!")
        (r, s1.addLog r.description)

/-- Model of `CombatEncounter.disengage(combatant_id, is_bonus_action)`
(`gamer/combat/combat.py` lines 482-500). -/
def CombatEncounter.disengage (s : CombatEncounter) (combatant_id : String)
    (is_bonus_action : Bool) : ActionResult × CombatEncounter :=
  match dictGet s.combatants combatant_id with
  | none => (ActionResult.mk0 false "Invalid combatant", s)
  | some c =>
      let p := if is_bonus_action then c.action_economy.use_bonus_action
               else c.action_economy.use_action
      if !p.1 then
        (ActionResult.mk0 false
          (if is_bonus_action then "No bonus action available" else "No action available"), s)
      else
        let s1 := { s with
          combatants := dictUpdate s.combatants combatant_id
            (fun cc => { cc with action_economy := p.2 }) }
        let r := ActionResult.mk0 true (c.entity.name ++ " Disengages.")
        (r, s1.addLog r.description)

/-- Model of `CombatEncounter.help_action(helper_id, target_id)`
(`gamer/combat/combat.py` lines 502-519). -/
def CombatEncounter.help_action (s : CombatEncounter) (helper_id target_id : String) :
    ActionResult × CombatEncounter :=
  match dictGet s.combatants helper_id, dictGet s.combatants target_id with
  | some helper, some target =>
      let p := helper.action_economy.use_action
      if !p.1 then (ActionResult.mk0 false "No action available", s)
      else
        let s1 := { s with
          combatants := dictUpdate s.combatants helper_id
            (fun cc => { cc with action_economy := p.2 }) }
        let s2 := { s1 with
          combatants := dictUpdate s1.combatants target_id
            (fun cc => { cc with helped_by := some helper_id }) }
        let r := ActionResult.mk0 true (helper.entity.name ++ " helps " ++ target.entity.name)
        (r, s2.addLog r.description)
  | _, _ => (ActionResult.mk0 false "Invalid helper or target", s)

/-- Model of `CombatEncounter.death_save(combatant_id)` (`gamer/combat/combat.py`
lines 521-551).  `entity.death_save` exists only on `Character`; calling this with a
monster id raises `AttributeError` in Python (unreachable in the host flow) and is
modeled as a failure result. -/
def CombatEncounter.death_save (s : CombatEncounter) (combatant_id : String)
    (rng : List Int) : ActionResult × CombatEncounter × List Int :=
  match dictGet s.combatants combatant_id with
  | none => (ActionResult.mk0 false "Invalid combatant", s, rng)
  | some c =>
      if c.is_conscious then (ActionResult.mk0 false "Not unconscious", s, rng)
      else if !c.entity.isCharacter then
        (ActionResult.mk0 false "Invalid combatant", s, rng)
      else
        let pr := rollD20 rng
        let ds := c.entity.death_save pr.1
        let s1 := { s with
          combatants := dictUpdate s.combatants combatant_id
            (fun cc => { cc with entity := ds.2 }) }
        let r := { ActionResult.mk0 ds.1.success
          (c.entity.name ++ " makes a death save: " ++ toString pr.1) with
          roll_details := [("roll", pr.1)] }
        (r, s1.addLog r.description, pr.2)

/-- Insertion of a latest-registered element into a list from a stable sort's point
of view: the new element goes in front of the first strictly-later entry (and after
every tie).  Used to characterize re-sorting after an append. -/
def insortRight (x : InitiativeEntry) : List InitiativeEntry → List InitiativeEntry
  | [] => [x]
  | y :: ys => if InitiativeEntry.lt x y then x :: y :: ys else y :: insortRight x ys

/-- One registration of claim C8: an `add_combatant` call with an explicitly forced
initiative roll. -/
structure Registration where
  name : String
  entity_id : String
  dex_modifier : Int
  initiative : Int
  is_player : Bool
deriving DecidableEq

/-- The `InitiativeEntry` that `add_combatant` builds for a forced registration. -/
def regEntry (r : Registration) : InitiativeEntry :=
  { name := r.name, initiative := r.initiative, dex_modifier := r.dex_modifier,
    entity_id := r.entity_id, is_player := r.is_player, has_acted := false }

/-- A sequence of `add_combatant` calls with forced rolls, starting from a fresh
tracker (claim C8). -/
def addAllForced (regs : List Registration) : InitiativeTracker :=
  regs.foldl
    (fun t r =>
      (t.add_combatant r.name r.entity_id r.dex_modifier r.is_player (some r.initiative) []).2.1)
    InitiativeTracker.init

/-- Concrete-fixture entity builder: a character or monster with the given hit
points, maximum hit points and armor class, and neutral values everywhere else. -/
def baseEntity (nm : String) (isChar : Bool) (hp maxhp acv : Int) : Entity :=
  { name := nm, isCharacter := isChar, current_hp := hp, max_hp := maxhp, temp_hp := 0,
    death_save_successes := 0, death_save_failures := if isChar && decide (hp ≤ 0) then 3 else 0,
    armor_class := acv, speed := 30, attack_bonus := 0, damage_bonus := 0, conditions := [],
    proficiency_bonus := 2, ability_mods := fun _ => 0, save_mods := fun _ => 0,
    spellbook := none, level := 1, char_class_name := "Fighter" }

/-- Concrete-fixture combatant builder with a fresh action economy. -/
def mkCombatant (e : Entity) (entity_id : String) (is_player : Bool) : Combatant :=
  { entity := e, entity_id := entity_id, is_player := is_player,
    action_economy := ActionEconomy.init, is_dodging := false, is_hidden := false,
    helped_by := none, readied_action := none }

/-- Fixture tracker for claim C2: `A` (initiative 20) acts before `B`
(initiative 10); it is `A`'s turn. -/
def trackerAB : InitiativeTracker :=
  { entries :=
      [{ name := "A", initiative := 20, dex_modifier := 0, entity_id := "a",
         is_player := true, has_acted := false },
       { name := "B", initiative := 10, dex_modifier := 0, entity_id := "b",
         is_player := true, has_acted := false }],
    current_index := 0, round_number := 1 }

/-- Fixture encounter for claim C1: a fled encounter in which every hostile
combatant is already dead. -/
def cexFled : CombatEncounter :=
  { state := CombatState.FLED,
    initiative :=
      { entries :=
          [{ name := "P", initiative := 12, dex_modifier := 0, entity_id := "p",
             is_player := true, has_acted := false },
           { name := "M", initiative := 8, dex_modifier := 0, entity_id := "m",
             is_player := false, has_acted := false }],
        current_index := 0, round_number := 1 },
    combatants :=
      [("p", mkCombatant (baseEntity "P" true 5 10 12) "p" true),
       ("m", mkCombatant (baseEntity "M" false 0 7 11) "m" false)],
    combat_log := [], turn_number := 1 }

/-- Fixture encounter for concrete attacks: a player `a` with a full action budget
facing a monster `b` with 30 HP and armor class 10. -/
def attackEnc : CombatEncounter :=
  { state := CombatState.IN_PROGRESS,
    initiative :=
      { entries :=
          [{ name := "A", initiative := 15, dex_modifier := 0, entity_id := "a",
             is_player := true, has_acted := false },
           { name := "B", initiative := 9, dex_modifier := 0, entity_id := "b",
             is_player := false, has_acted := false }],
        current_index := 0, round_number := 1 },
    combatants :=
      [("a", mkCombatant (baseEntity "A" true 12 12 14) "a" true),
       ("b", mkCombatant (baseEntity "B" false 30 30 10) "b" false)],
    combat_log := [], turn_number := 1 }

/-- Model of the `SPELLS` registration of `Fire Bolt` (`gamer/characters/spells.py`):
a damage cantrip with a spell attack (no saving throw). -/
def fireBolt : Spell :=
  { name := "Fire Bolt", level := 0, casting_time := CastingTime.ACTION,
    damage_dice := some { num_dice := 1, die_size := 10, modifier := 0 },
    damage_type := "fire", saving_throw := none, concentration := false }

/-- Model of the `SPELLS` registration of `Sacred Flame`
(`gamer/characters/spells.py`): a damage cantrip with a Dexterity saving throw. -/
def sacredFlame : Spell :=
  { name := "Sacred Flame", level := 0, casting_time := CastingTime.ACTION,
    damage_dice := some { num_dice := 1, die_size := 8, modifier := 0 },
    damage_type := "radiant", saving_throw := some Ability.DEXTERITY,
    concentration := false }

/-- The restriction of the `SPELLS` database to the two registrations the concrete
fixtures use (keys are lowercase, as in the source). -/
def demoDB : String → Option Spell := fun key =>
  if key = "fire bolt" then some fireBolt
  else if key = "sacred flame" then some sacredFlame
  else none

/-- Fixture spellbook: a caster knowing the two demo cantrips, with no slots. -/
def demoSpellbook : Spellbook :=
  { spellcasting_ability := Ability.WISDOM, known_spells := [], prepared_spells := [],
    cantrips := ["fire bolt", "sacred flame"],
    slot_tracker := { max_slots := [], current_slots := [] }, concentrating_on := none }

/-- Fixture encounter for concrete spell casts: a caster `w` with the demo spellbook
and a monster target `m` with 20 HP. -/
def casterEnc : CombatEncounter :=
  { state := CombatState.IN_PROGRESS,
    initiative :=
      { entries :=
          [{ name := "W", initiative := 15, dex_modifier := 0, entity_id := "w",
             is_player := true, has_acted := false },
           { name := "M", initiative := 9, dex_modifier := 0, entity_id := "m",
             is_player := false, has_acted := false }],
        current_index := 0, round_number := 1 },
    combatants :=
      [("w", mkCombatant
          { baseEntity "W" true 10 10 12 with spellbook := some demoSpellbook } "w" true),
       ("m", mkCombatant (baseEntity "M" false 20 20 10) "m" false)],
    combat_log := [], turn_number := 1 }

/-- Fixture spellbook reaching `cast_spell`'s internal failed-cast path: `fire bolt`
(a cantrip) is recorded among the known leveled spells instead of the cantrip set,
and level-2 slots are available, so `can_cast` at slot level 2 succeeds while
`Spellbook.cast_spell` returns `None`. -/
def oddSpellbook : Spellbook :=
  { spellcasting_ability := Ability.WISDOM, known_spells := ["fire bolt"],
    prepared_spells := [], cantrips := [],
    slot_tracker := { max_slots := [(2, 3)], current_slots := [(2, 3)] },
    concentrating_on := none }

/-- Fixture encounter whose caster `o` carries `oddSpellbook`, so that casting
`fire bolt` at slot level 2 passes `can_cast`, spends the action, and then fails. -/
def oddCasterEnc : CombatEncounter :=
  { state := CombatState.IN_PROGRESS,
    initiative :=
      { entries :=
          [{ name := "O", initiative := 11, dex_modifier := 0, entity_id := "o",
             is_player := true, has_acted := false }],
        current_index := 0, round_number := 1 },
    combatants :=
      [("o", mkCombatant
          { baseEntity "O" true 10 10 12 with spellbook := some oddSpellbook } "o" true)],
    combat_log := [], turn_number := 1 }

/-! Theorems.  Each claim of the specification audit is settled by exactly one
theorem below (with a witness when the theorem carries hypotheses, and a
counterexample when the claim fails as stated). -/

/-- Counterexample to claim C9 as stated: `use_movement` accepts a negative
`feet` argument (the source only checks `feet <= movement_remaining`), and spending
`-5` feet increases the remaining movement from 30 to 35, so a spend operation can
increase a capacity. -/
theorem c9_counterexample :
    ¬ ((ActionEconomy.use_movement
          { ActionEconomy.init with movement_remaining := 30 } (-5)).2.movement_remaining ≤
        ({ ActionEconomy.init with movement_remaining := 30 } : ActionEconomy).movement_remaining) := by
  decide

/-- C9 (amended): for a nonnegative number of feet, no spend operation
(`use_action`, `use_bonus_action`, `use_reaction`, `use_movement`) ever increases a
capacity: each availability flag and the remaining movement is at most its value
before the call. -/
theorem c9_spend_monotone (e : ActionEconomy) (feet : Int) (hfeet : 0 ≤ feet) :
    econLe (e.use_action).2 e ∧ econLe (e.use_bonus_action).2 e ∧
      econLe (e.use_reaction).2 e ∧ econLe (e.use_movement feet).2 e := by
  unfold econLe ActionEconomy.use_action ActionEconomy.use_bonus_action
    ActionEconomy.use_reaction ActionEconomy.use_movement
  refine ⟨?_, ?_, ?_, ?_⟩ <;> split <;> simp_all

/-- Witness for C9 (amended), at a fresh action budget with 30 feet of movement and
a spend of 3 feet. -/
theorem c9_spend_monotone_witness :
    econLe (({ ActionEconomy.init with movement_remaining := 30 } : ActionEconomy).use_action).2
        { ActionEconomy.init with movement_remaining := 30 } ∧
      econLe (({ ActionEconomy.init with movement_remaining := 30 } : ActionEconomy).use_bonus_action).2
        { ActionEconomy.init with movement_remaining := 30 } ∧
      econLe (({ ActionEconomy.init with movement_remaining := 30 } : ActionEconomy).use_reaction).2
        { ActionEconomy.init with movement_remaining := 30 } ∧
      econLe (({ ActionEconomy.init with movement_remaining := 30 } : ActionEconomy).use_movement 3).2
        { ActionEconomy.init with movement_remaining := 30 } :=
  c9_spend_monotone { ActionEconomy.init with movement_remaining := 30 } 3 (by decide)

/-- C10: for a conscious character (with the structural invariants that maximum HP
is nonnegative), `take_damage` reports `instant_death` exactly when
the damage remaining after temporary-HP absorption is at least `current_hp + max_hp`;
in that case the character is left at 0 HP with three death-save failures; and the
resulting HP is never negative. -/
theorem c10_take_damage_instant_death (e : Entity) (amount : Int)
    (hc : e.isCharacter = true) (hhp : 0 < e.current_hp) (hmax : 0 ≤ e.max_hp) :
    ((e.take_damage amount).1.instant_death = true ↔
        amount - (if e.temp_hp > 0 then min e.temp_hp amount else 0) ≥
          e.current_hp + e.max_hp) ∧
      ((e.take_damage amount).1.instant_death = true →
        (e.take_damage amount).2.current_hp = 0 ∧
          (e.take_damage amount).2.death_save_failures = 3) ∧
      0 ≤ (e.take_damage amount).2.current_hp := by
  unfold Entity.take_damage Entity.take_damage_character
  rw [hc]
  simp only [if_pos]
  split_ifs <;> simp_all <;> omega

/-- Witness for C10: a character at 10/10 HP with no temporary HP taking 25 damage
(at least `current_hp + max_hp = 20`) dies instantly at 0 HP with three failures. -/
theorem c10_take_damage_instant_death_witness :
    (((baseEntity "X" true 10 10 10).take_damage 25).1.instant_death = true ↔
        25 - (if (baseEntity "X" true 10 10 10).temp_hp > 0 then
            min (baseEntity "X" true 10 10 10).temp_hp 25 else 0) ≥
          (baseEntity "X" true 10 10 10).current_hp + (baseEntity "X" true 10 10 10).max_hp) ∧
      (((baseEntity "X" true 10 10 10).take_damage 25).1.instant_death = true →
        ((baseEntity "X" true 10 10 10).take_damage 25).2.current_hp = 0 ∧
          ((baseEntity "X" true 10 10 10).take_damage 25).2.death_save_failures = 3) ∧
      0 ≤ ((baseEntity "X" true 10 10 10).take_damage 25).2.current_hp :=
  c10_take_damage_instant_death (baseEntity "X" true 10 10 10) 25 rfl (by decide) (by decide)

/-- C2 (code bug): on tracker `[A:20, B:10]` with the pointer on `A`,
`set_initiative("a", 5)` succeeds and re-sorts to `[B:10, A:5]`, but the source reads
`self.entries[self.current_index]` only after the re-sort, so the pointer is
re-located by the identity of whoever landed on the old index (here `B`), not by the
identity of the previously-current combatant `A`: the current entry changes from `A`
to `B`, contradicting the specified behavior. -/
theorem c2_set_initiative_pointer_desync :
    (trackerAB.get_current).map (fun e => e.entity_id) = some "a" ∧
      (trackerAB.set_initiative "a" 5).1 = true ∧
      ((trackerAB.set_initiative "a" 5).2.get_current).map (fun e => e.entity_id) = some "b" := by
  decide

/-- Counterexample to claim C1 as stated: in a `FLED` encounter whose hostile
combatants are all dead (reachable: kill the last monster with `attack`, which does
not re-check termination, then call `end_combat`), the next `next_turn` call re-runs
`_check_combat_end` and overwrites the terminal state `FLED` with `VICTORY`. -/
theorem c1_counterexample :
    cexFled.state = CombatState.FLED ∧
      (CombatEncounter.next_turn 1 cexFled).2.state = CombatState.VICTORY := by
  exact ⟨rfl, rfl⟩

/-- C1 (amended): the action operations (`attack`, `cast_spell`, `dodge`, `dash`,
`disengage`, `help_action`, `death_save`) never change the lifecycle state at all,
and `end_combat` never changes a terminal state; only `next_turn`/`advance` can leave
a terminal state, by re-deriving `VICTORY`/`DEFEAT` from current hit points. -/
theorem c1_terminal_absorbing_except_advance
    (s : CombatEncounter) (db : String → Option Spell)
    (a t i c reason spell_name : String) (tid : Option String) (sl : Option Int)
    (w : WeaponData) (b : Bool) (rng : List Int) :
    (s.attack a t w rng).2.1.state = s.state ∧
      (CombatEncounter.cast_spell db s c spell_name tid sl rng).2.1.state = s.state ∧
      (s.dodge i).2.state = s.state ∧
      (s.dash i b).2.state = s.state ∧
      (s.disengage i b).2.state = s.state ∧
      (s.help_action a t).2.state = s.state ∧
      (s.death_save i rng).2.1.state = s.state ∧
      (s.state.isTerminal = true → (s.end_combat reason).state = s.state) := by
  refine ⟨?_, ?_, ?_, ?_, ?_, ?_, ?_, ?_⟩
  · unfold CombatEncounter.attack
    repeat' (first | rfl | split | dsimp only)
  · unfold CombatEncounter.cast_spell
    repeat' (first | rfl | split | dsimp only)
  · unfold CombatEncounter.dodge
    repeat' (first | rfl | split | dsimp only)
  · unfold CombatEncounter.dash
    repeat' (first | rfl | split | dsimp only)
  · unfold CombatEncounter.disengage
    repeat' (first | rfl | split | dsimp only)
  · unfold CombatEncounter.help_action
    repeat' (first | rfl | split | dsimp only)
  · unfold CombatEncounter.death_save
    repeat' (first | rfl | split | dsimp only)
  · intro h
    unfold CombatEncounter.end_combat
    split
    · rename_i hp
      rw [hp] at h
      exact absurd h (by decide)
    · rfl

/-- Witness for C1 (amended), at the fled fixture encounter: `end_combat` leaves the
terminal state `FLED` unchanged (and, from the same conjunction, `dodge` leaves the
state unchanged). -/
theorem c1_terminal_absorbing_witness :
    (cexFled.end_combat "Retreat").state = cexFled.state ∧
      (cexFled.dodge "p").2.state = cexFled.state :=
  ⟨(c1_terminal_absorbing_except_advance cexFled (fun _ => none) "a" "t" "i" "c" "Retreat"
      "fire bolt" none none defaultWeapon false []).2.2.2.2.2.2.2 (by decide),
   (c1_terminal_absorbing_except_advance cexFled (fun _ => none) "a" "t" "p" "c" "Retreat"
      "fire bolt" none none defaultWeapon false []).2.2.1⟩

/-- Shared helper: looking a key up after an update of another key is unchanged, and
after an update of the same key applies the update. -/
theorem dictGet_dictUpdate (m : List (String × Combatant)) (k key : String)
    (f : Combatant → Combatant) :
    dictGet (dictUpdate m k f) key =
      if key = k then (dictGet m key).map f else dictGet m key := by
  induction m with
  | nil => simp [dictGet, dictUpdate]
  | cons p rest ih =>
      obtain ⟨pk, pv⟩ := p
      by_cases h1 : pk = k <;> by_cases h2 : pk = key
      · have h3 : key = k := by rw [← h2, h1]
        simp [dictGet, dictUpdate, h1, h2, h3]
      · have h3 : ¬ k = key := h1 ▸ h2
        have h4 : ¬ key = k := fun hh => h3 hh.symm
        simp [dictGet, dictUpdate, h1, h2, h3, h4, ih]
      · have h3 : ¬ key = k := by rw [← h2]; exact h1
        simp [dictGet, dictUpdate, h1, h2, h3]
      · simp [dictGet, dictUpdate, h1, h2, ih]

/-- Counterexample to claim C3 as stated: an attack that is executed but misses (a
forced natural 1) returns `success = false`, yet the attacker's action was consumed
before the roll, so the action budget is not as it was before the call. -/
theorem c3_counterexample :
    (attackEnc.attack "a" "b" defaultWeapon [1]).1.success = false ∧
      (dictGet attackEnc.combatants "a").map
        (fun cc => cc.action_economy.action_available) = some true ∧
      (dictGet (attackEnc.attack "a" "b" defaultWeapon [1]).2.1.combatants "a").map
        (fun cc => cc.action_economy.action_available) = some false := by
  decide

/-- C3 (amended): whenever a resolver operation rejects an action without executing
it — unknown ids for `dodge`/`dash`/`disengage`/`help_action`/`death_save`, no
action, bonus action or reaction available, a failed `can_cast` check, a missing
spellbook, `death_save` on a conscious combatant — the whole encounter state, combat
log included, is exactly as before the call; and `cast_spell`'s internal failed-cast
path (reachable only with an inconsistently populated spellbook) returns
`success = false` after the action economy was already spent, that spend being the
only state change.  (An executed attack that misses and a failed death save also
return `success = false` but consume the action, respectively record the failure,
and are excluded.) -/
theorem c3_rejection_leaves_state_unchanged
    (s : CombatEncounter) (db : String → Option Spell)
    (i a t c spell_name : String) (tid : Option String) (sl : Option Int)
    (w : WeaponData) (b : Bool) (rng : List Int) :
    ((s.dodge i).1.success = false → (s.dodge i).2 = s) ∧
      ((s.dash i b).1.success = false → (s.dash i b).2 = s) ∧
      ((s.disengage i b).1.success = false → (s.disengage i b).2 = s) ∧
      ((s.help_action a t).1.success = false → (s.help_action a t).2 = s) ∧
      (dictGet s.combatants a = none ∨ dictGet s.combatants t = none →
        (s.attack a t w rng).1.success = false ∧ (s.attack a t w rng).2.1 = s) ∧
      (∀ A, dictGet s.combatants a = some A →
        A.action_economy.action_available = false → A.action_economy.extra_attacks ≤ 0 →
        (s.attack a t w rng).1.success = false ∧ (s.attack a t w rng).2.1 = s) ∧
      (dictGet s.combatants c = none →
        (CombatEncounter.cast_spell db s c spell_name tid sl rng).1.success = false ∧
          (CombatEncounter.cast_spell db s c spell_name tid sl rng).2.1 = s) ∧
      (∀ C, dictGet s.combatants c = some C → C.entity.spellbook = none →
        (CombatEncounter.cast_spell db s c spell_name tid sl rng).1.success = false ∧
          (CombatEncounter.cast_spell db s c spell_name tid sl rng).2.1 = s) ∧
      (∀ C sb, dictGet s.combatants c = some C → C.entity.spellbook = some sb →
        sb.can_cast db spell_name sl = false →
        (CombatEncounter.cast_spell db s c spell_name tid sl rng).1.success = false ∧
          (CombatEncounter.cast_spell db s c spell_name tid sl rng).2.1 = s) ∧
      (∀ C sb spell, dictGet s.combatants c = some C → C.entity.spellbook = some sb →
        sb.can_cast db spell_name sl = true → db (strToLower spell_name) = some spell →
        ((spell.casting_time = CastingTime.ACTION ∧
            C.action_economy.action_available = false) ∨
          (spell.casting_time = CastingTime.BONUS_ACTION ∧
            C.action_economy.bonus_action_available = false) ∨
          (spell.casting_time = CastingTime.REACTION ∧
            C.action_economy.reaction_available = false)) →
        (CombatEncounter.cast_spell db s c spell_name tid sl rng).1.success = false ∧
          (CombatEncounter.cast_spell db s c spell_name tid sl rng).2.1 = s) ∧
      (dictGet s.combatants i = none →
        (s.death_save i rng).1.success = false ∧ (s.death_save i rng).2.1 = s) ∧
      (∀ D, dictGet s.combatants i = some D → D.is_conscious = true →
        (s.death_save i rng).1.success = false ∧ (s.death_save i rng).2.1 = s) ∧
      (∀ C sb spell eco1, dictGet s.combatants c = some C → C.entity.spellbook = some sb →
        sb.can_cast db spell_name sl = true → db (strToLower spell_name) = some spell →
        (sb.cast_spell db spell_name sl).1 = none →
        ((spell.casting_time = CastingTime.ACTION ∧
            C.action_economy.action_available = true ∧
            eco1 = (C.action_economy.use_action).2) ∨
          (spell.casting_time = CastingTime.BONUS_ACTION ∧
            C.action_economy.bonus_action_available = true ∧
            eco1 = (C.action_economy.use_bonus_action).2) ∨
          (spell.casting_time = CastingTime.REACTION ∧
            C.action_economy.reaction_available = true ∧
            eco1 = (C.action_economy.use_reaction).2)) →
        (CombatEncounter.cast_spell db s c spell_name tid sl rng).1.success = false ∧
          (CombatEncounter.cast_spell db s c spell_name tid sl rng).2.1 =
            { s with
              combatants :=
                dictUpdate s.combatants c
                  (fun cc => { cc with action_economy := eco1 }) }) := by
  refine ⟨?_, ?_, ?_, ?_, ?_, ?_, ?_, ?_, ?_, ?_, ?_, ?_, ?_⟩
  · intro h
    rcases hd : dictGet s.combatants i with _ | cc
    · simp [CombatEncounter.dodge, hd]
    · by_cases hb : (cc.action_economy.use_action).1 <;>
        simp [CombatEncounter.dodge, hd, hb, ActionResult.mk0] at h ⊢
  · intro h
    rcases hd : dictGet s.combatants i with _ | cc
    · simp [CombatEncounter.dash, hd]
    · cases b <;>
        [by_cases hb : (cc.action_economy.use_action).1;
         by_cases hb : (cc.action_economy.use_bonus_action).1] <;>
        simp [CombatEncounter.dash, hd, hb, ActionResult.mk0] at h ⊢
  · intro h
    rcases hd : dictGet s.combatants i with _ | cc
    · simp [CombatEncounter.disengage, hd]
    · cases b <;>
        [by_cases hb : (cc.action_economy.use_action).1;
         by_cases hb : (cc.action_economy.use_bonus_action).1] <;>
        simp [CombatEncounter.disengage, hd, hb, ActionResult.mk0] at h ⊢
  · intro h
    rcases hd : dictGet s.combatants a with _ | ch
    · simp [CombatEncounter.help_action, hd]
    · rcases he : dictGet s.combatants t with _ | ct
      · simp [CombatEncounter.help_action, hd, he]
      · by_cases hb : (ch.action_economy.use_action).1 <;>
          simp [CombatEncounter.help_action, hd, he, hb, ActionResult.mk0] at h ⊢
  · intro h
    rcases ha : dictGet s.combatants a with _ | A <;>
      rcases ht : dictGet s.combatants t with _ | T <;>
      simp [CombatEncounter.attack, ha, ht, ActionResult.mk0] at h ⊢ <;> simp_all
  · intro A hA hAvail hExtra
    rcases ht : dictGet s.combatants t with _ | T <;>
      simp [CombatEncounter.attack, hA, ht, hAvail, hExtra, ActionResult.mk0]
  · intro h
    simp [CombatEncounter.cast_spell, h, ActionResult.mk0]
  · intro C hC hsb
    simp [CombatEncounter.cast_spell, hC, hsb, ActionResult.mk0]
  · intro C sb hC hsb hcc
    simp [CombatEncounter.cast_spell, hC, hsb, hcc, ActionResult.mk0]
  · intro C sb spell hC hsb hcc hdb hrej
    rcases hrej with ⟨hct, hun⟩ | ⟨hct, hun⟩ | ⟨hct, hun⟩ <;>
      simp [CombatEncounter.cast_spell, hC, hsb, hcc, hdb, hct, hun, ActionResult.mk0,
        ActionEconomy.use_action, ActionEconomy.use_bonus_action, ActionEconomy.use_reaction]
  · intro h
    simp [CombatEncounter.death_save, h, ActionResult.mk0]
  · intro D hD hcon
    simp [CombatEncounter.death_save, hD, hcon, ActionResult.mk0]
  · intro C sb spell eco1 hC hsb hcc hdb hfail hecon
    rcases hecon with ⟨hct, hav, hecoeq⟩ | ⟨hct, hav, hecoeq⟩ | ⟨hct, hav, hecoeq⟩ <;>
      subst hecoeq <;>
      simp [CombatEncounter.cast_spell, hC, hsb, hcc, hdb, hct, hav, hfail,
        ActionResult.mk0, ActionEconomy.use_action, ActionEconomy.use_bonus_action,
        ActionEconomy.use_reaction]

/-- Witness for C3 (amended): `dodge` and `death_save` with an unknown combatant id
on the attack fixture encounter fail and leave the encounter exactly unchanged, and
on the odd-spellbook fixture the failed-cast path fails after spending exactly the
caster's action. -/
theorem c3_rejection_witness :
    ((attackEnc.dodge "zz").1.success = false ∧ (attackEnc.dodge "zz").2 = attackEnc) ∧
      ((attackEnc.death_save "zz" []).1.success = false ∧
        (attackEnc.death_save "zz" []).2.1 = attackEnc) ∧
      ((CombatEncounter.cast_spell demoDB oddCasterEnc "o" "fire bolt" none (some 2)
          []).1.success = false ∧
        (CombatEncounter.cast_spell demoDB oddCasterEnc "o" "fire bolt" none (some 2)
            []).2.1 =
          { oddCasterEnc with
            combatants :=
              dictUpdate oddCasterEnc.combatants "o"
                (fun cc => { cc with
                  action_economy := (ActionEconomy.init.use_action).2 }) }) :=
  ⟨⟨by decide,
    (c3_rejection_leaves_state_unchanged attackEnc (fun _ => none) "zz" "a" "b" "w"
        "fire bolt" none none defaultWeapon false []).1 (by decide)⟩,
   (c3_rejection_leaves_state_unchanged attackEnc (fun _ => none) "zz" "a" "b" "w"
       "fire bolt" none none defaultWeapon false []).2.2.2.2.2.2.2.2.2.2.1 rfl,
   (c3_rejection_leaves_state_unchanged oddCasterEnc demoDB "i" "a" "b" "o" "fire bolt"
       none (some 2) defaultWeapon false []).2.2.2.2.2.2.2.2.2.2.2.2
     (mkCombatant { baseEntity "O" true 10 10 12 with spellbook := some oddSpellbook }
       "o" true)
     oddSpellbook fireBolt (ActionEconomy.init.use_action).2
     rfl rfl (by decide) (by decide) (by decide) (Or.inl ⟨rfl, rfl, rfl⟩)⟩

/-- Counterexample to claim C4 as stated: `cast_spell` with an unregistered target
id returns `success = true` (the damage block is silently skipped when the target
lookup fails), not `success = false`. -/
theorem c4_counterexample :
    dictGet casterEnc.combatants "zz" = none ∧
      (CombatEncounter.cast_spell demoDB casterEnc "w" "fire bolt" (some "zz") none
        []).1.success = true := by
  exact ⟨rfl, by decide⟩

/-- C4 (amended): an unregistered entity id passed to any resolver operation yields a
result object with `success = false` (the embedding is total, so no exception or
process abort is possible) — except for `cast_spell`'s target id: a successfully cast
damage spell aimed at an unregistered target id reports `success = true` with no
damage dealt and no target recorded. -/
theorem c4_unknown_id_rejected
    (s : CombatEncounter) (db : String → Option Spell)
    (a t i u c spell_name : String) (tidOpt : Option String) (sl : Option Int)
    (w : WeaponData) (b : Bool) (rng : List Int) :
    (dictGet s.combatants a = none ∨ dictGet s.combatants t = none →
      (s.attack a t w rng).1.success = false) ∧
      (dictGet s.combatants i = none →
        (s.dodge i).1.success = false ∧ (s.dash i b).1.success = false ∧
          (s.disengage i b).1.success = false ∧
          (s.death_save i rng).1.success = false) ∧
      (dictGet s.combatants a = none ∨ dictGet s.combatants u = none →
        (s.help_action a u).1.success = false) ∧
      (dictGet s.combatants c = none →
        (CombatEncounter.cast_spell db s c spell_name tidOpt sl rng).1.success = false) ∧
      (∀ C sb spell nd tid, dictGet s.combatants c = some C →
        C.entity.spellbook = some sb → sb.can_cast db spell_name sl = true →
        db (strToLower spell_name) = some spell → spell.casting_time = CastingTime.ACTION →
        C.action_economy.action_available = true →
        (sb.cast_spell db spell_name sl).1.isSome = true →
        spell.damage_dice = some nd → tid.isEmpty = false →
        dictGet s.combatants tid = none →
        (CombatEncounter.cast_spell db s c spell_name (some tid) sl rng).1.success = true ∧
          (CombatEncounter.cast_spell db s c spell_name (some tid) sl
            rng).1.damage_dealt = 0 ∧
          (CombatEncounter.cast_spell db s c spell_name (some tid) sl
            rng).1.target_id = none) := by
  refine ⟨?_, ?_, ?_, ?_, ?_⟩
  · intro h
    rcases ha : dictGet s.combatants a with _ | A <;>
      rcases ht : dictGet s.combatants t with _ | T <;>
      simp [CombatEncounter.attack, ha, ht, ActionResult.mk0] <;> simp_all
  · intro h
    refine ⟨?_, ?_, ?_, ?_⟩ <;>
      simp [CombatEncounter.dodge, CombatEncounter.dash, CombatEncounter.disengage,
        CombatEncounter.death_save, h, ActionResult.mk0]
  · intro h
    rcases ha : dictGet s.combatants a with _ | A <;>
      rcases hu : dictGet s.combatants u with _ | U <;>
      simp [CombatEncounter.help_action, ha, hu, ActionResult.mk0] <;> simp_all
  · intro h
    simp [CombatEncounter.cast_spell, h, ActionResult.mk0]
  · intro C sb spell nd tid hC hsb hcc hdb hct hAvail hcast hdice h9 h10
    obtain ⟨sp, hsp⟩ := Option.isSome_iff_exists.mp hcast
    have hne : tid ≠ c := by
      intro hh
      rw [hh, hC] at h10
      exact Option.noConfusion h10
    simp [CombatEncounter.cast_spell, hC, hsb, hcc, hdb, hct, hsp, hdice, h9, h10,
      ActionEconomy.use_action, hAvail, dictGet_dictUpdate, hne, ActionResult.mk0]

/-- Witness for C4 (amended): on the caster fixture, `Fire Bolt` cast at the
unregistered id `"zz"` succeeds with zero damage and no target. -/
theorem c4_unknown_id_rejected_witness :
    (CombatEncounter.cast_spell demoDB casterEnc "w" "fire bolt" (some "zz") none
        []).1.success = true ∧
      (CombatEncounter.cast_spell demoDB casterEnc "w" "fire bolt" (some "zz") none
        []).1.damage_dealt = 0 ∧
      (CombatEncounter.cast_spell demoDB casterEnc "w" "fire bolt" (some "zz") none
        []).1.target_id = none :=
  (c4_unknown_id_rejected casterEnc demoDB "a" "t" "i" "u" "w" "fire bolt" (some "zz") none
      defaultWeapon false []).2.2.2.2
    (mkCombatant { baseEntity "W" true 10 10 12 with spellbook := some demoSpellbook } "w" true)
    demoSpellbook fireBolt { num_dice := 1, die_size := 10, modifier := 0 } "zz"
    rfl rfl (by decide) (by decide) rfl rfl (by decide) (by decide) (by decide) rfl

/-- C5: with a straight roll (no advantage or disadvantage source active), a forced
natural 1 always misses — `success = false`, no damage, target untouched — for every
attack bonus and armor class, and a forced natural 20 always hits with
`critical = true`, even when `20 + attack_bonus` is below the target's armor
class (no hypothesis constrains the bonus or the armor class). -/
theorem c5_natural_one_and_twenty (s : CombatEncounter) (a t : String) (A T : Combatant)
    (w : WeaponData) (rng : List Int)
    (hA : dictGet s.combatants a = some A) (hT : dictGet s.combatants t = some T)
    (hAvail : A.action_economy.action_available = true)
    (hDodge : T.is_dodging = false) (hHelp : A.helped_by = none)
    (hPa : A.entity.has_condition "prone" = false)
    (hPt : T.entity.has_condition "prone" = false)
    (hPar : T.entity.has_condition "paralyzed" = false)
    (hStun : T.entity.has_condition "stunned" = false)
    (hne : t ≠ a) :
    ((s.attack a t w (1 :: rng)).1.success = false ∧
        (s.attack a t w (1 :: rng)).1.damage_dealt = 0 ∧
        dictGet (s.attack a t w (1 :: rng)).2.1.combatants t = some T) ∧
      ((s.attack a t w (20 :: rng)).1.success = true ∧
        (s.attack a t w (20 :: rng)).1.critical = true) := by
  refine ⟨⟨?_, ?_, ?_⟩, ?_, ?_⟩ <;>
    simp [CombatEncounter.attack, hA, hT, hAvail, hDodge, hHelp, hPa, hPt, hPar, hStun,
      ActionEconomy.use_action, rollD20, drawDie, dictGet_dictUpdate, hne, ActionResult.mk0,
      CombatEncounter.addLog]

/-- Witness for C5, on the attack fixture encounter (attacker `a`, target `b`,
default weapon): a forced 1 misses and leaves the target untouched; a forced 20 hits
critically. -/
theorem c5_natural_one_and_twenty_witness :
    ((attackEnc.attack "a" "b" defaultWeapon (1 :: [])).1.success = false ∧
        (attackEnc.attack "a" "b" defaultWeapon (1 :: [])).1.damage_dealt = 0 ∧
        dictGet (attackEnc.attack "a" "b" defaultWeapon (1 :: [])).2.1.combatants "b" =
          some (mkCombatant (baseEntity "B" false 30 30 10) "b" false)) ∧
      ((attackEnc.attack "a" "b" defaultWeapon (20 :: [])).1.success = true ∧
        (attackEnc.attack "a" "b" defaultWeapon (20 :: [])).1.critical = true) :=
  c5_natural_one_and_twenty attackEnc "a" "b"
    (mkCombatant (baseEntity "A" true 12 12 14) "a" true)
    (mkCombatant (baseEntity "B" false 30 30 10) "b" false)
    defaultWeapon [] rfl rfl rfl rfl rfl (by decide) (by decide) (by decide) (by decide)
    (by decide)

/-- Shared helper: every weapon record `get_weapon_data` can return carries plain
dice with no flat notation modifier. -/
theorem weaponDomain_modifier_zero : ∀ wd ∈ weaponDomain, wd.damage.modifier = 0 := by
  decide

/-- C6: on a critical hit (forced natural 20, straight roll), the damage total
passed to the target's damage operation is the sum of two independent, consecutive
rolls of the weapon's damage dice plus exactly one application of the flat damage
modifier, floored at zero — for every weapon record `get_weapon_data` can return
(all of which carry plain dice with no notation modifier). -/
theorem c6_critical_damage (s : CombatEncounter) (a t : String) (A T : Combatant)
    (w : WeaponData) (rest : List Int)
    (hw : w ∈ weaponDomain)
    (hA : dictGet s.combatants a = some A) (hT : dictGet s.combatants t = some T)
    (hAvail : A.action_economy.action_available = true)
    (hDodge : T.is_dodging = false) (hHelp : A.helped_by = none)
    (hPa : A.entity.has_condition "prone" = false)
    (hPt : T.entity.has_condition "prone" = false)
    (hPar : T.entity.has_condition "paralyzed" = false)
    (hStun : T.entity.has_condition "stunned" = false)
    (hne : t ≠ a) :
    dictGet (s.attack a t w (20 :: rest)).2.1.combatants t =
        some { T with entity :=
          (T.entity.take_damage (max 0
            ((rollDiceSum w.damage.num_dice rest).1 +
              (rollDiceSum w.damage.num_dice (rollDiceSum w.damage.num_dice rest).2).1 +
              A.entity.damage_bonus))).2 } ∧
      (s.attack a t w (20 :: rest)).1.damage_dealt =
        (T.entity.take_damage (max 0
          ((rollDiceSum w.damage.num_dice rest).1 +
            (rollDiceSum w.damage.num_dice (rollDiceSum w.damage.num_dice rest).2).1 +
            A.entity.damage_bonus))).1.damage_taken ∧
      0 ≤ max 0
        ((rollDiceSum w.damage.num_dice rest).1 +
          (rollDiceSum w.damage.num_dice (rollDiceSum w.damage.num_dice rest).2).1 +
          A.entity.damage_bonus) := by
  have hmod : w.damage.modifier = 0 := weaponDomain_modifier_zero w hw
  refine ⟨?_, ?_, ?_⟩ <;>
    simp [CombatEncounter.attack, hA, hT, hAvail, hDodge, hHelp, hPa, hPt, hPar, hStun,
      ActionEconomy.use_action, rollD20, drawDie, dictGet_dictUpdate, hne, ActionResult.mk0,
      rollExpr, hmod, le_max_left, CombatEncounter.addLog]

/-- Witness for C6, on the attack fixture encounter with the greatsword (2d6) and
forced damage draws `[4, 5, 2, 6]`: the two damage rolls are `4+5` and `2+6`, so the
target takes `max 0 (9 + 8 + 0) = 17` damage. -/
theorem c6_critical_damage_witness :
    dictGet (attackEnc.attack "a" "b"
        { damage := { num_dice := 2, die_size := 6, modifier := 0 },
          damage_type := "slashing" } (20 :: [4, 5, 2, 6])).2.1.combatants "b" =
        some { mkCombatant (baseEntity "B" false 30 30 10) "b" false with entity :=
          ((mkCombatant (baseEntity "B" false 30 30 10) "b" false).entity.take_damage (max 0
            ((rollDiceSum 2 [4, 5, 2, 6]).1 +
              (rollDiceSum 2 (rollDiceSum 2 [4, 5, 2, 6]).2).1 +
              (mkCombatant (baseEntity "A" true 12 12 14) "a" true).entity.damage_bonus))).2 } ∧
      (attackEnc.attack "a" "b"
          { damage := { num_dice := 2, die_size := 6, modifier := 0 },
            damage_type := "slashing" } (20 :: [4, 5, 2, 6])).1.damage_dealt =
        ((mkCombatant (baseEntity "B" false 30 30 10) "b" false).entity.take_damage (max 0
          ((rollDiceSum 2 [4, 5, 2, 6]).1 +
            (rollDiceSum 2 (rollDiceSum 2 [4, 5, 2, 6]).2).1 +
            (mkCombatant (baseEntity "A" true 12 12 14) "a" true).entity.damage_bonus))).1.damage_taken ∧
      0 ≤ max 0
        ((rollDiceSum 2 [4, 5, 2, 6]).1 +
          (rollDiceSum 2 (rollDiceSum 2 [4, 5, 2, 6]).2).1 +
          (mkCombatant (baseEntity "A" true 12 12 14) "a" true).entity.damage_bonus) :=
  c6_critical_damage attackEnc "a" "b"
    (mkCombatant (baseEntity "A" true 12 12 14) "a" true)
    (mkCombatant (baseEntity "B" false 30 30 10) "b" false)
    { damage := { num_dice := 2, die_size := 6, modifier := 0 }, damage_type := "slashing" }
    [4, 5, 2, 6] (by decide) rfl rfl rfl rfl rfl (by decide) (by decide) (by decide)
    (by decide) (by decide)

/-- C7: for every damage spell with a saving throw, when the target's save roll
(d20 draw plus its save modifier) meets or exceeds `8 + caster proficiency + caster
spellcasting-ability modifier`, the damage applied to the target is the rolled total
halved by floor integer division; on a failed save the full rolled total is applied;
the cast reports success. -/
theorem c7_save_halves_damage
    (s : CombatEncounter) (db : String → Option Spell) (c tid spell_name : String)
    (C : Combatant) (sb : Spellbook) (spell : Spell) (nd : DiceExpr) (ability : Ability)
    (T : Combatant) (sl : Option Int) (sroll : Int) (rest : List Int)
    (hC : dictGet s.combatants c = some C) (hsb : C.entity.spellbook = some sb)
    (hcc : sb.can_cast db spell_name sl = true)
    (hdb : db (strToLower spell_name) = some spell)
    (hct : spell.casting_time = CastingTime.ACTION)
    (hAvail : C.action_economy.action_available = true)
    (hcast : (sb.cast_spell db spell_name sl).1.isSome = true)
    (hdice : spell.damage_dice = some nd)
    (hsave : spell.saving_throw = some ability)
    (hemp : tid.isEmpty = false)
    (hT : dictGet s.combatants tid = some T)
    (hne : tid ≠ c) :
    (sroll + T.entity.save_mods ability ≥
        8 + C.entity.proficiency_bonus + C.entity.ability_mods sb.spellcasting_ability →
      dictGet (CombatEncounter.cast_spell db s c spell_name (some tid) sl
          (sroll :: rest)).2.1.combatants tid =
        some { T with entity := (T.entity.take_damage (Int.fdiv (rollExpr nd rest).1 2)).2 } ∧
      (CombatEncounter.cast_spell db s c spell_name (some tid) sl
          (sroll :: rest)).1.damage_dealt =
        (T.entity.take_damage (Int.fdiv (rollExpr nd rest).1 2)).1.damage_taken) ∧
    (sroll + T.entity.save_mods ability <
        8 + C.entity.proficiency_bonus + C.entity.ability_mods sb.spellcasting_ability →
      dictGet (CombatEncounter.cast_spell db s c spell_name (some tid) sl
          (sroll :: rest)).2.1.combatants tid =
        some { T with entity := (T.entity.take_damage (rollExpr nd rest).1).2 } ∧
      (CombatEncounter.cast_spell db s c spell_name (some tid) sl
          (sroll :: rest)).1.damage_dealt =
        (T.entity.take_damage (rollExpr nd rest).1).1.damage_taken) ∧
    (CombatEncounter.cast_spell db s c spell_name (some tid) sl
      (sroll :: rest)).1.success = true := by
  obtain ⟨sp, hsp⟩ := Option.isSome_iff_exists.mp hcast
  refine ⟨?_, ?_, ?_⟩
  · intro hge
    constructor <;>
      simp [CombatEncounter.cast_spell, hC, hsb, hcc, hdb, hct, hsp, hdice, hsave, hemp,
        hT, hne, ActionEconomy.use_action, hAvail, dictGet_dictUpdate, ActionResult.mk0,
        CombatEncounter.addLog, Spellbook.get_spell_save_dc, rollD20, drawDie, hge]
  · intro hlt
    have hge : ¬ (sroll + T.entity.save_mods ability ≥
        8 + C.entity.proficiency_bonus + C.entity.ability_mods sb.spellcasting_ability) := by
      omega
    constructor <;>
      simp [CombatEncounter.cast_spell, hC, hsb, hcc, hdb, hct, hsp, hdice, hsave, hemp,
        hT, hne, ActionEconomy.use_action, hAvail, dictGet_dictUpdate, ActionResult.mk0,
        CombatEncounter.addLog, Spellbook.get_spell_save_dc, rollD20, drawDie, hge]
  · by_cases hge : sroll + T.entity.save_mods ability ≥
        8 + C.entity.proficiency_bonus + C.entity.ability_mods sb.spellcasting_ability <;>
      simp [CombatEncounter.cast_spell, hC, hsb, hcc, hdb, hct, hsp, hdice, hsave, hemp,
        hT, hne, ActionEconomy.use_action, hAvail, dictGet_dictUpdate, ActionResult.mk0,
        CombatEncounter.addLog, Spellbook.get_spell_save_dc, rollD20, drawDie, hge]

/-- Witness for C7: on the caster fixture, `Sacred Flame` (1d8, DEX save, save DC
`8 + 2 + 0 = 10`) against the monster `m` with a forced save roll of 20 (saved) and a
rolled total of 6 applies `6 fdiv 2 = 3` damage. -/
theorem c7_save_halves_damage_witness :
    dictGet (CombatEncounter.cast_spell demoDB casterEnc "w" "sacred flame" (some "m") none
        (20 :: [6])).2.1.combatants "m" =
      some { mkCombatant (baseEntity "M" false 20 20 10) "m" false with entity :=
        ((mkCombatant (baseEntity "M" false 20 20 10) "m" false).entity.take_damage
          (Int.fdiv (rollExpr { num_dice := 1, die_size := 8, modifier := 0 } [6]).1 2)).2 } ∧
      (CombatEncounter.cast_spell demoDB casterEnc "w" "sacred flame" (some "m") none
          (20 :: [6])).1.damage_dealt =
        ((mkCombatant (baseEntity "M" false 20 20 10) "m" false).entity.take_damage
          (Int.fdiv (rollExpr { num_dice := 1, die_size := 8, modifier := 0 } [6]).1 2)).1.damage_taken ∧
      (CombatEncounter.cast_spell demoDB casterEnc "w" "sacred flame" (some "m") none
        (20 :: [6])).1.success = true := by
  have h := c7_save_halves_damage casterEnc demoDB "w" "m" "sacred flame"
    (mkCombatant { baseEntity "W" true 10 10 12 with spellbook := some demoSpellbook } "w" true)
    demoSpellbook sacredFlame { num_dice := 1, die_size := 8, modifier := 0 }
    Ability.DEXTERITY (mkCombatant (baseEntity "M" false 20 20 10) "m" false) none 20 [6]
    rfl rfl (by decide) (by decide) rfl rfl (by decide) (by decide) (by decide) (by decide)
    rfl (by decide)
  exact ⟨(h.1 (by decide)).1, (h.1 (by decide)).2, h.2.2⟩

/-- Shared helper: arithmetic characterization of `InitiativeEntry.__lt__`. -/
theorem entry_lt_iff (a b : InitiativeEntry) :
    InitiativeEntry.lt a b = true ↔
      (b.initiative < a.initiative ∨
        (a.initiative = b.initiative ∧ b.dex_modifier < a.dex_modifier)) := by
  unfold InitiativeEntry.lt
  by_cases h : a.initiative = b.initiative <;> simp [h] <;> omega

/-- Shared helper: arithmetic characterization of the stable-sort relation. -/
theorem entryLe_iff (a b : InitiativeEntry) :
    entryLe a b ↔
      (b.initiative < a.initiative ∨
        (a.initiative = b.initiative ∧ b.dex_modifier ≤ a.dex_modifier)) := by
  unfold entryLe
  rw [entry_lt_iff]
  omega

/-- Shared helper: inserting the previously-appended (latest) element commutes with
inserting an earlier element. -/
theorem orderedInsert_insortRight (a x : InitiativeEntry) (m : List InitiativeEntry) :
    List.orderedInsert entryLe a (insortRight x m) =
      insortRight x (List.orderedInsert entryLe a m) := by
  induction m with
  | nil =>
      by_cases hax : InitiativeEntry.lt x a = true <;>
        simp [insortRight, List.orderedInsert, entryLe, hax]
  | cons y ys ih =>
      by_cases hxy : InitiativeEntry.lt x y = true <;>
        by_cases hay : InitiativeEntry.lt y a = true <;>
        by_cases hax : InitiativeEntry.lt x a = true <;>
        simp [insortRight, List.orderedInsert, entryLe, hxy, hay, hax, ih]
      all_goals
        exfalso
        rw [entry_lt_iff] at hxy hay hax
        omega

/-- Shared helper: sorting after appending one element is inserting that element into
the sorted prefix from the latest-comer's position. -/
theorem insertionSort_append_single (l : List InitiativeEntry) (x : InitiativeEntry) :
    List.insertionSort entryLe (l ++ [x]) = insortRight x (List.insertionSort entryLe l) := by
  induction l with
  | nil => simp [List.insertionSort, insortRight, List.orderedInsert]
  | cons a l ih =>
      simp only [List.cons_append, List.insertionSort, List.append_eq, ih,
        orderedInsert_insortRight]

/-- Shared helper: invariant of the registration fold of claim C8. -/
theorem addAllForced_entries_aux (regs : List Registration) :
    ∀ (t : InitiativeTracker) (pre : List InitiativeEntry),
      t.entries = List.insertionSort entryLe pre →
      (regs.foldl
        (fun t r =>
          (t.add_combatant r.name r.entity_id r.dex_modifier r.is_player (some r.initiative)
            []).2.1) t).entries =
        List.insertionSort entryLe (pre ++ regs.map regEntry) := by
  induction regs with
  | nil =>
      intro t pre h
      simpa using h
  | cons r rest ih =>
      intro t pre h
      simp only [List.foldl_cons, List.map_cons]
      have step :
          ((t.add_combatant r.name r.entity_id r.dex_modifier r.is_player (some r.initiative)
            []).2.1).entries = List.insertionSort entryLe (pre ++ [regEntry r]) := by
        simp only [InitiativeTracker.add_combatant, sortEntries, h, regEntry]
        rw [insertionSort_append_single, insertionSort_append_single,
          (List.sorted_insertionSort entryLe pre).insertionSort_eq]
      have hrest := ih _ _ step
      rw [hrest, List.append_assoc, List.singleton_append]

/-- Shared helper: inserting an element preserves the filter along a key class
(initiative and dexterity both fixed), putting the new element last in its class. -/
theorem filter_orderedInsert_key (v d : Int) (a : InitiativeEntry)
    (m : List InitiativeEntry) :
    (List.orderedInsert entryLe a m).filter
        (fun e => e.initiative == v && e.dex_modifier == d) =
      if a.initiative == v && a.dex_modifier == d then
        a :: m.filter (fun e => e.initiative == v && e.dex_modifier == d)
      else m.filter (fun e => e.initiative == v && e.dex_modifier == d) := by
  induction m with
  | nil =>
      by_cases hpa : (a.initiative == v && a.dex_modifier == d) = true <;>
        simp [List.orderedInsert, List.filter, hpa]
  | cons y ys ih =>
      by_cases hay : entryLe a y
      · by_cases hpa : (a.initiative == v && a.dex_modifier == d) = true <;>
          simp [List.orderedInsert, hay, hpa, List.filter]
      · by_cases hpa : (a.initiative == v && a.dex_modifier == d) = true
        · have hpy : ¬ ((y.initiative == v && y.dex_modifier == d) = true) := by
            intro hpy
            apply hay
            rw [entryLe_iff]
            simp only [Bool.and_eq_true, beq_iff_eq] at hpa hpy
            omega
          simp [List.orderedInsert, hay, hpa, hpy, ih, List.filter]
        · by_cases hpy : (y.initiative == v && y.dex_modifier == d) = true <;>
            simp [List.orderedInsert, hay, hpa, hpy, ih, List.filter]

/-- Shared helper: the stable sort preserves the filter along every key class. -/
theorem filter_insertionSort_key (v d : Int) (l : List InitiativeEntry) :
    (List.insertionSort entryLe l).filter
        (fun e => e.initiative == v && e.dex_modifier == d) =
      l.filter (fun e => e.initiative == v && e.dex_modifier == d) := by
  induction l with
  | nil => rfl
  | cons a l ih =>
      by_cases hpa : (a.initiative == v && a.dex_modifier == d) = true <;>
        simp [List.insertionSort, filter_orderedInsert_key, hpa, ih, List.filter]

/-- C8: a sequence of `add_combatant` calls with forced rolls yields exactly the
stable sort of the registrations: the order is deterministic (it equals the stable
insertion sort of the registration list), it is sorted by initiative descending then
dexterity tiebreak descending, any remaining ties keep registration order (the filter
along every key class is preserved), and the concrete example registers
`(A,15,2), (B,15,3), (C,18,0)` in the order `C, B, A`. -/
theorem c8_initiative_order (regs : List Registration) :
    (addAllForced regs).entries = List.insertionSort entryLe (regs.map regEntry) ∧
      List.Sorted entryLe (addAllForced regs).entries ∧
      (∀ v d : Int,
        (addAllForced regs).entries.filter
            (fun e => e.initiative == v && e.dex_modifier == d) =
          (regs.map regEntry).filter
            (fun e => e.initiative == v && e.dex_modifier == d)) ∧
      (addAllForced
          [{ name := "A", entity_id := "idA", dex_modifier := 2, initiative := 15,
             is_player := true },
           { name := "B", entity_id := "idB", dex_modifier := 3, initiative := 15,
             is_player := true },
           { name := "C", entity_id := "idC", dex_modifier := 0, initiative := 18,
             is_player := true }]).entries.map (fun e => e.name) = ["C", "B", "A"] := by
  have hmain : ∀ regs' : List Registration,
      (addAllForced regs').entries = List.insertionSort entryLe (regs'.map regEntry) :=
    fun regs' => by
      have := addAllForced_entries_aux regs' InitiativeTracker.init [] rfl
      simpa [addAllForced] using this
  refine ⟨hmain regs, ?_, ?_, ?_⟩
  · rw [hmain regs]
    exact List.sorted_insertionSort entryLe _
  · intro v d
    rw [hmain regs]
    exact filter_insertionSort_key v d _
  · rw [hmain]
    decide

end Gamer
